import Mathlib

/-!
Shallow embedding of `Source/Samples/54_SSAO/StaticScene.cpp` from the
Urho3D-SSAO-Shader repository.

The sample's own computations only copy, add and rescale slider / mouse
values, so engine `float`s are embedded as exact rationals (`ℚ`).  Engine
objects the sample manipulates (scene nodes, render paths, viewports, UI
sliders, mouse state) are embedded as plain Lean structures; engine calls
the sample makes (`SetShaderParameter`, `SetVisible`, `Clone`, `Append`,
`SetEnabled`, `SetRange`, `SetValue`, `Clamp`, ...) are embedded as pure
functions on those structures.  Rotating a vector by a quaternion involves
trigonometry the sample never inspects, so `Node::Translate`'s local-to-world
conversion is abstracted as an arbitrary function parameter `rotv`.
-/

namespace SSAO

/-- Rational embedding of the engine `Vector3`. -/
structure Vec3 where
  x : ℚ
  y : ℚ
  z : ℚ
deriving DecidableEq

/-- Componentwise vector addition (`Node::Translate` accumulates position). -/
def Vec3.add (a b : Vec3) : Vec3 := ⟨a.x + b.x, a.y + b.y, a.z + b.z⟩

/-- Vector-by-scalar product, as in `Vector3::FORWARD * MOVE_SPEED * timeStep`. -/
def Vec3.mulScalar (v : Vec3) (c : ℚ) : Vec3 := ⟨v.x * c, v.y * c, v.z * c⟩

def Vec3.FORWARD : Vec3 := ⟨0, 0, 1⟩

def Vec3.BACK : Vec3 := ⟨0, 0, -1⟩

def Vec3.LEFT : Vec3 := ⟨-1, 0, 0⟩

def Vec3.RIGHT : Vec3 := ⟨1, 0, 0⟩

/-- Euler-angle rotation in degrees, the constructor arguments of
`Quaternion(pitch_, yaw_, 0.0f)` in `MoveCamera`. -/
structure Rot where
  pitch : ℚ
  yaw : ℚ
  roll : ℚ
deriving DecidableEq

/-- Components the sample attaches to scene nodes.  `light` is present in the
model only because the sample's light-creating code is commented out and the
spec asserts its absence. -/
inductive Component where
  | octree : Component
  | staticModel (model : String) (material : String) : Component
  | zone : Component
  | camera : Component
  | light : Component
deriving DecidableEq

/-- A scene node as the sample configures it: name, position, scale and
attached components. -/
structure SceneNode where
  name : String
  position : Vec3
  scale : Vec3
  components : List Component
deriving DecidableEq

/-- The scene: components created directly on `scene_` plus its child nodes. -/
structure Scene where
  components : List Component
  nodes : List SceneNode
deriving DecidableEq

/-- Embedding of `StaticScene::CreateScene` (StaticScene.cpp lines 76-138).
`rand` supplies the value of `Random(2.0f)` for each loop iteration `i`.
Resource-cache configuration and the zone's fog/ambient settings have no
bearing on the scene's node/component structure and are not recorded. -/
def createScene (rand : Nat → ℚ) : Scene :=
  let planeNode : SceneNode :=
    { name := "Plane"
      position := ⟨0, 0, 0⟩
      scale := ⟨100, 1, 100⟩
      components := [Component.staticModel "Models/Plane.mdl" "Materials/Prototype.xml"] }
  let zoneNode : SceneNode :=
    { name := "Zone"
      position := ⟨0, 0, 0⟩
      scale := ⟨1, 1, 1⟩
      components := [Component.zone] }
  let mushrooms : List SceneNode :=
    (List.range 200).map (fun (i : Nat) =>
      { name := "Mushroom"
        position := ⟨(i : ℚ), 1.5, 0⟩
        scale := ⟨3 + rand i, 3 + rand i, 3 + rand i⟩
        components := [Component.staticModel "Models/Box.mdl" "Materials/Prototype.xml"] })
  let cameraNode : SceneNode :=
    { name := "Camera"
      position := ⟨0, 5, 0⟩
      scale := ⟨1, 1, 1⟩
      components := [Component.camera] }
  { components := [Component.octree]
    nodes := planeNode :: zoneNode :: mushrooms ++ [cameraNode] }

/-- Association-list update with the engine's `SetShaderParameter` semantics:
overwrite an existing entry, otherwise append a new one. -/
def setAssoc {β : Type} : List (String × β) → String → β → List (String × β)
  | [], key, v => [(key, v)]
  | (k, w) :: rest, key, v =>
      if k = key then (key, v) :: rest else (k, w) :: setAssoc rest key v

/-- Association-list lookup. -/
def lookupAssoc {β : Type} : List (String × β) → String → Option β
  | [], _ => none
  | (k, w) :: rest, key => if k = key then some w else lookupAssoc rest key

/-- A render path: the base resource it was loaded from, the post-process
resources appended to it, the per-tag enabled flags, and its named shader
parameters. -/
structure RenderPath where
  source : String
  appended : List String
  tagEnabled : List (String × Bool)
  shaderParams : List (String × ℚ)
deriving DecidableEq

/-- `RenderPath::SetShaderParameter(name, value)`. -/
def RenderPath.setShaderParameter (rp : RenderPath) (name : String) (v : ℚ) : RenderPath :=
  { rp with shaderParams := setAssoc rp.shaderParams name v }

/-- `RenderPath::Append(resource)`: add the resource's commands to the path. -/
def RenderPath.appendRes (rp : RenderPath) (res : String) : RenderPath :=
  { rp with appended := rp.appended ++ [res] }

/-- `RenderPath::SetEnabled(tag, flag)`. -/
def RenderPath.setEnabledTag (rp : RenderPath) (tag : String) (flag : Bool) : RenderPath :=
  { rp with tagEnabled := setAssoc rp.tagEnabled tag flag }

/-- A viewport holding its render path by value (sufficient for the slider
handlers, which only ever read `GetViewport(0)->GetRenderPath()`). -/
structure Viewport where
  renderPath : RenderPath
deriving DecidableEq

/-- The renderer's viewport slots. -/
structure Renderer where
  viewports : List Viewport
deriving DecidableEq

/-- In-place update of one list index, leaving every other index unchanged
(the effect of mutating through the pointer `GetViewport(i)`). -/
def modifyIdx {α : Type} (f : α → α) : Nat → List α → List α
  | _, [] => []
  | 0, a :: as => f a :: as
  | n + 1, a :: as => a :: modifyIdx f n as

/-- Overwrite one list index (`Renderer::SetViewport(i, vp)`). -/
def setIdx {α : Type} (v : α) : Nat → List α → List α :=
  modifyIdx (fun _ => v)

/-- The engine's `Clamp(value, min, max)`. -/
def Clamp (value lo hi : ℚ) : ℚ :=
  if value < lo then lo else if hi < value then hi else value

/-- A UI slider: its label text and the engine `Slider`'s range and value. -/
structure UISlider where
  text : String
  range : ℚ
  value : ℚ
deriving DecidableEq

/-- `Slider::SetRange`. -/
def UISlider.setRange (s : UISlider) (r : ℚ) : UISlider := { s with range := r }

/-- `Slider::SetValue`; the engine clamps the stored value to `[0, range_]`. -/
def UISlider.setValue (s : UISlider) (v : ℚ) : UISlider :=
  { s with value := Clamp v 0 s.range }

/-- One step performed on a slider during `CreateSlider`, recorded to witness
the order of the `SetRange`/`SetValue` calls. -/
inductive SliderOp where
  | setRange (r : ℚ) : SliderOp
  | setValue (v : ℚ) : SliderOp
deriving DecidableEq

/-- Embedding of `StaticScene::CreateSlider(text, value, range)`
(StaticScene.cpp lines 318-340): a freshly styled slider (engine default
range 1, value 0) gets `SetRange(range)` then `SetValue(value)`, in that
order.  Returns the finished slider and the trace of the two calls. -/
def createSlider (text : String) (value range : ℚ) : UISlider × List SliderOp :=
  let slider : UISlider := { text := text, range := 1, value := 0 }
  let slider := slider.setRange range
  let slider := slider.setValue value
  (slider, [SliderOp.setRange range, SliderOp.setValue value])

/-- The five sliders of the settings window, in creation order. -/
inductive SliderId where
  | strength : SliderId
  | area : SliderId
  | falloff : SliderId
  | noiseFactor : SliderId
  | radius : SliderId
deriving DecidableEq

def SliderId.all : List SliderId :=
  [SliderId.strength, SliderId.area, SliderId.falloff, SliderId.noiseFactor, SliderId.radius]

/-- The shader-parameter name each slider's `E_SLIDERCHANGED` lambda writes. -/
def SliderId.paramName : SliderId → String
  | SliderId.strength => "SSAOStrength"
  | SliderId.area => "SSAOArea"
  | SliderId.falloff => "SSAOFalloff"
  | SliderId.noiseFactor => "SSAONoiseFactor"
  | SliderId.radius => "SSAORadius"

/-- The five `CreateSlider` calls of `StaticScene::CreateInstructions`
(StaticScene.cpp lines 198-231), in source order, paired with the id of the
handler subscribed to each slider's `E_SLIDERCHANGED` event. -/
def createInstructions : List (UISlider × SliderId) :=
  [ ((createSlider "Strength" 1.0 5.0).1, SliderId.strength),
    ((createSlider "Area" 1.75 3.0).1, SliderId.area),
    ((createSlider "Falloff" 1.0 10.0).1, SliderId.falloff),
    ((createSlider "Noise Factor" 7.0 20.0).1, SliderId.noiseFactor),
    ((createSlider "Radius" 0.6 10.0).1, SliderId.radius) ]

/-- Mouse modes the sample uses (`MM_FREE`, `MM_ABSOLUTE`, `MM_RELATIVE`). -/
inductive MouseMode where
  | MM_FREE : MouseMode
  | MM_ABSOLUTE : MouseMode
  | MM_RELATIVE : MouseMode
deriving DecidableEq

/-- The camera node together with the app's accumulated `yaw_` / `pitch_`. -/
structure CameraState where
  yaw : ℚ
  pitch : ℚ
  position : Vec3
  rotation : Rot
deriving DecidableEq

/-- Everything the sample's handlers can observe or mutate. -/
structure AppState where
  renderer : Renderer
  scene : Scene
  camera : CameraState
  windowVisible : Bool
  mouseVisible : Bool
  mouseMode : MouseMode
  sliders : List UISlider
deriving DecidableEq

/-- Apply a render-path mutation through `GetViewport(0)->GetRenderPath()`:
only viewport slot 0 of the renderer is touched. -/
def AppState.onViewport0RenderPath (s : AppState) (f : RenderPath → RenderPath) : AppState :=
  { s with renderer :=
      { viewports := modifyIdx (fun vp => { vp with renderPath := f vp.renderPath }) 0
          s.renderer.viewports } }

/-- Read a shader parameter of viewport 0's render path. -/
def AppState.viewport0Param (s : AppState) (name : String) : Option ℚ :=
  match s.renderer.viewports.head? with
  | some vp => lookupAssoc vp.renderPath.shaderParams name
  | none => none

/-- Embedding of the five `E_SLIDERCHANGED` lambdas subscribed in
`StaticScene::CreateInstructions` (StaticScene.cpp lines 198-231): each reads
the event's float `value` and calls
`GetSubsystem<Renderer>()->GetViewport(0)->GetRenderPath()->SetShaderParameter(...)`;
the falloff lambda passes `value / 1000.0f`, every other lambda passes
`value` unchanged. -/
def sliderChangedHandler : SliderId → ℚ → AppState → AppState
  | SliderId.strength, value, s =>
      s.onViewport0RenderPath (fun rp => rp.setShaderParameter "SSAOStrength" value)
  | SliderId.area, value, s =>
      s.onViewport0RenderPath (fun rp => rp.setShaderParameter "SSAOArea" value)
  | SliderId.falloff, value, s =>
      s.onViewport0RenderPath (fun rp => rp.setShaderParameter "SSAOFalloff" (value / 1000))
  | SliderId.noiseFactor, value, s =>
      s.onViewport0RenderPath (fun rp => rp.setShaderParameter "SSAONoiseFactor" value)
  | SliderId.radius, value, s =>
      s.onViewport0RenderPath (fun rp => rp.setShaderParameter "SSAORadius" value)

/-- The input snapshot `MoveCamera` reads this frame. -/
structure InputState where
  focusElement : Bool
  tabPressed : Bool
  mouseMoveX : ℤ
  mouseMoveY : ℤ
  keyW : Bool
  keyS : Bool
  keyA : Bool
  keyD : Bool
deriving DecidableEq

def MOVE_SPEED : ℚ := 20

def MOUSE_SENSITIVITY : ℚ := 1 / 10

/-- The four WASD `Node::Translate` calls at the end of `MoveCamera`
(StaticScene.cpp lines 291-298): each pressed key adds the corresponding
local-space direction, rotated into world space by the node's current
rotation, to the camera position; no other camera field is touched. -/
def translateWASD (rotv : Rot → Vec3 → Vec3) (input : InputState) (timeStep : ℚ)
    (cam : CameraState) : CameraState :=
  let cam := if input.keyW then
      { cam with position :=
          cam.position.add (rotv cam.rotation ((Vec3.FORWARD.mulScalar MOVE_SPEED).mulScalar timeStep)) }
    else cam
  let cam := if input.keyS then
      { cam with position :=
          cam.position.add (rotv cam.rotation ((Vec3.BACK.mulScalar MOVE_SPEED).mulScalar timeStep)) }
    else cam
  let cam := if input.keyA then
      { cam with position :=
          cam.position.add (rotv cam.rotation ((Vec3.LEFT.mulScalar MOVE_SPEED).mulScalar timeStep)) }
    else cam
  let cam := if input.keyD then
      { cam with position :=
          cam.position.add (rotv cam.rotation ((Vec3.RIGHT.mulScalar MOVE_SPEED).mulScalar timeStep)) }
    else cam
  cam

/-- Embedding of `StaticScene::MoveCamera(timeStep)` (StaticScene.cpp lines
253-299).  `rotv` abstracts the quaternion rotation `Node::Translate` applies
to convert a local-space translation into world space. -/
def moveCamera (rotv : Rot → Vec3 → Vec3) (input : InputState) (timeStep : ℚ)
    (s : AppState) : AppState :=
  if input.focusElement then s
  else
    let s :=
      if input.tabPressed then
        let s := { s with windowVisible := !s.windowVisible }
        if s.windowVisible then
          { s with mouseVisible := true, mouseMode := MouseMode.MM_FREE }
        else
          { s with mouseVisible := false, mouseMode := MouseMode.MM_ABSOLUTE }
      else s
    if s.windowVisible then s
    else
      let yaw := s.camera.yaw + MOUSE_SENSITIVITY * (input.mouseMoveX : ℚ)
      let pitch := s.camera.pitch + MOUSE_SENSITIVITY * (input.mouseMoveY : ℚ)
      let pitch := Clamp pitch (-90) 90
      let rot : Rot := ⟨pitch, yaw, 0⟩
      let cam := { s.camera with yaw := yaw, pitch := pitch, rotation := rot }
      { s with camera := translateWASD rotv input timeStep cam }

/-- A store of render-path objects addressed by id, so that `Clone` producing
a distinct object — and the original staying untouched — is expressible. -/
structure RPStore where
  paths : List RenderPath
deriving DecidableEq

/-- Dereference a render-path id. -/
def RPStore.get (st : RPStore) (i : Nat) : Option RenderPath := st.paths.get? i

/-- Allocate a fresh render-path object, returning its id. -/
def RPStore.alloc (st : RPStore) (rp : RenderPath) : RPStore × Nat :=
  ({ paths := st.paths ++ [rp] }, st.paths.length)

/-- Mutate the render-path object behind an id. -/
def RPStore.modifyAt (st : RPStore) (i : Nat) (f : RenderPath → RenderPath) : RPStore :=
  { paths := modifyIdx f i st.paths }

/-- A viewport referring to its render path by id (the `SharedPtr` picture). -/
structure ViewportRef where
  renderPathId : Nat
deriving DecidableEq

/-- The operations `SetupViewport` performs, in the order performed. -/
inductive RPOp where
  | clone : RPOp
  | append (res : String) : RPOp
  | setEnabled (tag : String) (flag : Bool) : RPOp
  | setViewportRenderPath : RPOp
  | setRendererViewport (index : Nat) : RPOp
deriving DecidableEq

/-- `Renderer::SetViewport(i, vp)`: grow the slot vector if needed (new slots
are null), then overwrite slot `i`. -/
def setViewportSlot (slots : List (Option ViewportRef)) (i : Nat) (vp : ViewportRef) :
    List (Option ViewportRef) :=
  if i < slots.length then setIdx (some vp) i slots
  else slots ++ List.replicate (i - slots.length) none ++ [some vp]

/-- Embedding of `StaticScene::SetupViewport` (StaticScene.cpp lines 235-251).
`defaultId` is the id of the render path the new viewport initially reports
from `GetRenderPath()` (the renderer's default path); `slots` are the
renderer's existing viewport slots.  Returns the final store, the renderer's
viewport slots, and the trace of operations in execution order. -/
def setupViewport (st : RPStore) (defaultId : Nat) (slots : List (Option ViewportRef)) :
    RPStore × List (Option ViewportRef) × List RPOp :=
  let viewport : ViewportRef := { renderPathId := defaultId }
  let cur := (st.get viewport.renderPathId).getD
      { source := "", appended := [], tagEnabled := [], shaderParams := [] }
  let (st, cloneId) := st.alloc cur
  let tr := [RPOp.clone]
  let st := st.modifyAt cloneId (fun rp => rp.appendRes "PostProcess/SSAO.xml")
  let tr := tr ++ [RPOp.append "PostProcess/SSAO.xml"]
  let st := st.modifyAt cloneId (fun rp => rp.setEnabledTag "SSAO" true)
  let tr := tr ++ [RPOp.setEnabled "SSAO" true]
  let viewport := { viewport with renderPathId := cloneId }
  let tr := tr ++ [RPOp.setViewportRenderPath]
  let slots := setViewportSlot slots 0 viewport
  let tr := tr ++ [RPOp.setRendererViewport 0]
  (st, slots, tr)

/-- The `range` argument passed to `CreateSlider` for each slider. -/
def SliderId.sliderRange : SliderId → ℚ
  | SliderId.strength => 5.0
  | SliderId.area => 3.0
  | SliderId.falloff => 10.0
  | SliderId.noiseFactor => 20.0
  | SliderId.radius => 10.0

/-- The `value` argument passed to `CreateSlider` for each slider. -/
def SliderId.sliderValue : SliderId → ℚ
  | SliderId.strength => 1.0
  | SliderId.area => 1.75
  | SliderId.falloff => 1.0
  | SliderId.noiseFactor => 7.0
  | SliderId.radius => 0.6

/-- The `text` argument passed to `CreateSlider` for each slider. -/
def SliderId.sliderText : SliderId → String
  | SliderId.strength => "Strength"
  | SliderId.area => "Area"
  | SliderId.falloff => "Falloff"
  | SliderId.noiseFactor => "Noise Factor"
  | SliderId.radius => "Radius"

/-- A concrete render path standing for the engine's default forward-depth
path, used to instantiate the theorems below at a concrete state. -/
def demoRenderPath : RenderPath :=
  { source := "RenderPaths/ForwardDepth.xml"
    appended := []
    tagEnabled := []
    shaderParams := [] }

/-- A concrete application state after startup, used to instantiate the
theorems below. -/
def demoState : AppState :=
  { renderer := { viewports := [{ renderPath := demoRenderPath }] }
    scene := { components := [Component.octree], nodes := [] }
    camera := { yaw := 0, pitch := 0, position := ⟨0, 5, 0⟩, rotation := ⟨0, 0, 0⟩ }
    windowVisible := false
    mouseVisible := false
    mouseMode := MouseMode.MM_RELATIVE
    sliders := createInstructions.map Prod.fst }

/-- A concrete input frame: TAB pressed, no focused UI element. -/
def demoInput : InputState :=
  { focusElement := false
    tabPressed := true
    mouseMoveX := 3
    mouseMoveY := -2
    keyW := true
    keyS := false
    keyA := false
    keyD := false }

/-- A concrete input frame: a focused UI element swallows all input. -/
def demoFocusInput : InputState :=
  { focusElement := true
    tabPressed := true
    mouseMoveX := 3
    mouseMoveY := -2
    keyW := true
    keyS := false
    keyA := false
    keyD := false }

/-- A trivial stand-in for the quaternion rotation of translation vectors. -/
def idRotv : Rot → Vec3 → Vec3 := fun _ v => v

/-- A concrete render-path store holding only the default path at id 0. -/
def demoStore : RPStore := { paths := [demoRenderPath] }

/-! ### Association-list and list-update lemmas -/

theorem lookupAssoc_setAssoc_self {β : Type} (l : List (String × β)) (k : String) (v : β) :
    lookupAssoc (setAssoc l k v) k = some v := by
  induction l with
  | nil => simp [setAssoc, lookupAssoc]
  | cons hd tl ih =>
    obtain ⟨k0, w⟩ := hd
    by_cases h : k0 = k
    · simp [setAssoc, h, lookupAssoc]
    · simp [setAssoc, h, lookupAssoc, ih]

theorem lookupAssoc_setAssoc_ne {β : Type} (l : List (String × β)) (k key : String) (v : β)
    (h : key ≠ k) : lookupAssoc (setAssoc l k v) key = lookupAssoc l key := by
  induction l with
  | nil => simp [setAssoc, lookupAssoc, Ne.symm h]
  | cons hd tl ih =>
    obtain ⟨k0, w⟩ := hd
    by_cases h0 : k0 = k
    · subst h0
      simp [setAssoc, lookupAssoc, Ne.symm h]
    · simp [setAssoc, lookupAssoc, h0, ih]

theorem get?_modifyIdx_self {α : Type} (f : α → α) (i : Nat) (l : List α) :
    (modifyIdx f i l).get? i = (l.get? i).map f := by
  induction l generalizing i with
  | nil => simp [modifyIdx]
  | cons a as ih =>
    cases i with
    | zero => simp [modifyIdx]
    | succ n => simpa [modifyIdx] using ih n

theorem get?_modifyIdx_ne {α : Type} (f : α → α) (i j : Nat) (l : List α) (h : i ≠ j) :
    (modifyIdx f i l).get? j = l.get? j := by
  induction l generalizing i j with
  | nil => simp [modifyIdx]
  | cons a as ih =>
    cases i with
    | zero =>
      cases j with
      | zero => exact absurd rfl h
      | succ m => simp [modifyIdx]
    | succ n =>
      cases j with
      | zero => simp [modifyIdx]
      | succ m =>
        simpa [modifyIdx] using ih n m (fun hh => h (by rw [hh]))

/-! ### Reading shader parameters through viewport 0 -/

theorem viewport0Param_onViewport0_cons (s : AppState) (f : RenderPath → RenderPath)
    (vp : Viewport) (rest : List Viewport) (h : s.renderer.viewports = vp :: rest)
    (name : String) :
    (s.onViewport0RenderPath f).viewport0Param name =
      lookupAssoc (f vp.renderPath).shaderParams name := by
  simp [AppState.onViewport0RenderPath, AppState.viewport0Param, h, modifyIdx]

theorem viewport0Param_cons (s : AppState) (vp : Viewport) (rest : List Viewport)
    (h : s.renderer.viewports = vp :: rest) (name : String) :
    s.viewport0Param name = lookupAssoc vp.renderPath.shaderParams name := by
  simp [AppState.viewport0Param, h]

/-- Each `E_SLIDERCHANGED` lambda is `SetShaderParameter` on viewport 0's
render path at its own parameter name, with the value divided by 1000 for the
falloff slider and passed through for every other slider. -/
theorem sliderChangedHandler_eq (id : SliderId) (v : ℚ) (s : AppState) :
    sliderChangedHandler id v s = s.onViewport0RenderPath
      (fun rp => rp.setShaderParameter id.paramName
        (if id = SliderId.falloff then v / 1000 else v)) := by
  cases id <;> rfl

theorem exists_cons_of_ne_nil {α : Type} {l : List α} (h : l ≠ []) :
    ∃ a as, l = a :: as := by
  cases l with
  | nil => exact absurd rfl h
  | cons a as => exact ⟨a, as, rfl⟩

/-! ### Claim theorems -/

/-- C1: for every value-changed notification of the Strength, Area, Noise
Factor, or Radius slider carrying float value `v`, the handler sets the
identically-corresponding named shader parameter (`SSAOStrength`, `SSAOArea`,
`SSAONoiseFactor`, `SSAORadius`) on the render path of viewport 0 to exactly
`v`, with no validation or transformation of `v`. -/
theorem sliders_forward_value_verbatim (id : SliderId) (v : ℚ) (s : AppState)
    (hid : id ≠ SliderId.falloff) (hv : s.renderer.viewports ≠ []) :
    (sliderChangedHandler id v s).viewport0Param id.paramName = some v := by
  obtain ⟨vp, rest, hl⟩ := exists_cons_of_ne_nil hv
  rw [sliderChangedHandler_eq, viewport0Param_onViewport0_cons s _ vp rest hl, if_neg hid]
  simp [RenderPath.setShaderParameter, lookupAssoc_setAssoc_self]

/-- Witness for C1: the Strength slider moved to 2 stores `SSAOStrength = 2`. -/
theorem sliders_forward_value_verbatim_witness :
    (sliderChangedHandler SliderId.strength 2 demoState).viewport0Param
      SliderId.strength.paramName = some 2 :=
  sliders_forward_value_verbatim SliderId.strength 2 demoState (by decide) (by decide)

/-- C2: the Falloff slider's handler sets `SSAOFalloff` on viewport 0's render
path to the value scaled by the single constant `1/1000`, and Falloff is the
only one of the five sliders whose value is transformed before forwarding. -/
theorem falloff_slider_scales_value (v : ℚ) (s : AppState)
    (hv : s.renderer.viewports ≠ []) :
    (sliderChangedHandler SliderId.falloff v s).viewport0Param "SSAOFalloff" = some (v / 1000)
    ∧ ∀ id : SliderId, id ≠ SliderId.falloff →
        (sliderChangedHandler id v s).viewport0Param id.paramName = some v := by
  obtain ⟨vp, rest, hl⟩ := exists_cons_of_ne_nil hv
  constructor
  · rw [sliderChangedHandler_eq, viewport0Param_onViewport0_cons s _ vp rest hl]
    simp [RenderPath.setShaderParameter, SliderId.paramName, lookupAssoc_setAssoc_self]
  · intro id hid
    rw [sliderChangedHandler_eq, viewport0Param_onViewport0_cons s _ vp rest hl, if_neg hid]
    simp [RenderPath.setShaderParameter, lookupAssoc_setAssoc_self]

/-- Witness for C2: the Falloff slider moved to 5 stores `SSAOFalloff = 5/1000`. -/
theorem falloff_slider_scales_value_witness :
    (sliderChangedHandler SliderId.falloff 5 demoState).viewport0Param "SSAOFalloff"
      = some (5 / 1000) :=
  (falloff_slider_scales_value 5 demoState (by decide)).1

/-- C3: the settings window exposes exactly five sliders, labelled Strength,
Area, Falloff, Noise Factor and Radius; each forwards to exactly one of the
five SSAO shader parameters (pairwise distinct names), and a handler leaves
every parameter name other than its own untouched, so no other shader
parameter is settable from this UI. -/
theorem five_sliders_one_param_each (id : SliderId) (v : ℚ) (s : AppState)
    (p : String) (hp : p ≠ id.paramName) :
    createInstructions.map (fun e => e.1.text) =
      ["Strength", "Area", "Falloff", "Noise Factor", "Radius"]
    ∧ createInstructions.map (fun e => e.2) = SliderId.all
    ∧ SliderId.all.map SliderId.paramName =
      ["SSAOStrength", "SSAOArea", "SSAOFalloff", "SSAONoiseFactor", "SSAORadius"]
    ∧ (SliderId.all.map SliderId.paramName).Nodup
    ∧ (sliderChangedHandler id v s).viewport0Param p = s.viewport0Param p := by
  refine ⟨by decide, by decide, by decide, by decide, ?_⟩
  rw [sliderChangedHandler_eq]
  cases hcase : s.renderer.viewports with
  | nil =>
    simp [AppState.onViewport0RenderPath, AppState.viewport0Param, hcase, modifyIdx]
  | cons vp rest =>
    rw [viewport0Param_onViewport0_cons s _ vp rest hcase, viewport0Param_cons s vp rest hcase]
    simp [RenderPath.setShaderParameter, lookupAssoc_setAssoc_ne _ _ _ _ hp]

/-- Witness for C3: moving Strength does not touch `SSAOArea`. -/
theorem five_sliders_one_param_each_witness :
    (sliderChangedHandler SliderId.strength 2 demoState).viewport0Param "SSAOArea"
      = demoState.viewport0Param "SSAOArea" :=
  (five_sliders_one_param_each SliderId.strength 2 demoState "SSAOArea" (by decide)).2.2.2.2

/-- C8: when the UI has a focused element, `MoveCamera` returns immediately
and the whole application state — yaw, pitch, camera position and rotation,
window visibility, mouse state — is unchanged, even if TAB was pressed. -/
theorem moveCamera_focus_returns_unchanged (rotv : Rot → Vec3 → Vec3)
    (input : InputState) (timeStep : ℚ) (s : AppState)
    (hf : input.focusElement = true) :
    moveCamera rotv input timeStep s = s := by
  simp [moveCamera, hf]

/-- Witness for C8: a focused-UI frame with TAB pressed changes nothing. -/
theorem moveCamera_focus_returns_unchanged_witness :
    moveCamera idRotv demoFocusInput 1 demoState = demoState :=
  moveCamera_focus_returns_unchanged idRotv demoFocusInput 1 demoState rfl

/-- C9: every slider's value-changed handler writes exactly one named shader
parameter on viewport 0's render path and modifies nothing else: scene,
camera, sliders, window visibility, mouse state, every other parameter name,
every other viewport, and the non-parameter fields of viewport 0's render
path are all unchanged. -/
theorem slider_handler_frame_effect (id : SliderId) (v : ℚ) (s : AppState) :
    (sliderChangedHandler id v s).scene = s.scene
    ∧ (sliderChangedHandler id v s).camera = s.camera
    ∧ (sliderChangedHandler id v s).sliders = s.sliders
    ∧ (sliderChangedHandler id v s).windowVisible = s.windowVisible
    ∧ (sliderChangedHandler id v s).mouseVisible = s.mouseVisible
    ∧ (sliderChangedHandler id v s).mouseMode = s.mouseMode
    ∧ (∀ p : String, p ≠ id.paramName →
        (sliderChangedHandler id v s).viewport0Param p = s.viewport0Param p)
    ∧ (∀ i : Nat, i ≠ 0 →
        (sliderChangedHandler id v s).renderer.viewports.get? i
          = s.renderer.viewports.get? i)
    ∧ ((sliderChangedHandler id v s).renderer.viewports.get? 0).map
        (fun vp => (vp.renderPath.source, vp.renderPath.appended, vp.renderPath.tagEnabled))
      = (s.renderer.viewports.get? 0).map
        (fun vp => (vp.renderPath.source, vp.renderPath.appended, vp.renderPath.tagEnabled)) := by
  rw [sliderChangedHandler_eq]
  refine ⟨rfl, rfl, rfl, rfl, rfl, rfl, ?_, ?_, ?_⟩
  · intro p hp
    cases hcase : s.renderer.viewports with
    | nil =>
      simp [AppState.onViewport0RenderPath, AppState.viewport0Param, hcase, modifyIdx]
    | cons vp rest =>
      rw [viewport0Param_onViewport0_cons s _ vp rest hcase,
          viewport0Param_cons s vp rest hcase]
      simp [RenderPath.setShaderParameter, lookupAssoc_setAssoc_ne _ _ _ _ hp]
  · intro i hi
    cases i with
    | zero => exact absurd rfl hi
    | succ m =>
      cases hcase : s.renderer.viewports with
      | nil => simp [AppState.onViewport0RenderPath, hcase, modifyIdx]
      | cons vp rest => simp [AppState.onViewport0RenderPath, hcase, modifyIdx]
  · cases hcase : s.renderer.viewports with
    | nil => simp [AppState.onViewport0RenderPath, hcase, modifyIdx]
    | cons vp rest =>
      simp [AppState.onViewport0RenderPath, hcase, modifyIdx, RenderPath.setShaderParameter]

/-- Witness for C9: the Radius handler leaves the scene untouched. -/
theorem slider_handler_frame_effect_witness :
    (sliderChangedHandler SliderId.radius 3 demoState).scene = demoState.scene :=
  (slider_handler_frame_effect SliderId.radius 3 demoState).1

/-- The engine `Clamp` really lands in `[lo, hi]` whenever `lo ≤ hi`. -/
theorem Clamp_bounds (v lo hi : ℚ) (h : lo ≤ hi) :
    lo ≤ Clamp v lo hi ∧ Clamp v lo hi ≤ hi := by
  unfold Clamp
  split_ifs <;> constructor <;> linarith

/-- The WASD translation block changes only the camera position. -/
theorem translateWASD_preserves (rotv : Rot → Vec3 → Vec3) (input : InputState)
    (timeStep : ℚ) (cam : CameraState) :
    (translateWASD rotv input timeStep cam).pitch = cam.pitch
    ∧ (translateWASD rotv input timeStep cam).yaw = cam.yaw
    ∧ (translateWASD rotv input timeStep cam).rotation = cam.rotation := by
  simp only [translateWASD]
  split_ifs <;> simp

/-- C5: starting from a pitch within `[-90, 90]`, after any call to
`MoveCamera` the pitch is still within `[-90, 90]`, and whenever the call
sets the camera node's rotation it uses the clamped pitch, the accumulated
yaw, and a roll fixed at zero. -/
theorem moveCamera_pitch_clamped (rotv : Rot → Vec3 → Vec3) (input : InputState)
    (timeStep : ℚ) (s : AppState)
    (h1 : -90 ≤ s.camera.pitch) (h2 : s.camera.pitch ≤ 90) :
    (-90 ≤ (moveCamera rotv input timeStep s).camera.pitch
      ∧ (moveCamera rotv input timeStep s).camera.pitch ≤ 90)
    ∧ ((moveCamera rotv input timeStep s).camera.rotation = s.camera.rotation
      ∨ (moveCamera rotv input timeStep s).camera.rotation =
          ⟨(moveCamera rotv input timeStep s).camera.pitch,
            (moveCamera rotv input timeStep s).camera.yaw, 0⟩) := by
  by_cases hf : input.focusElement = true
  · refine ⟨?_, Or.inl ?_⟩ <;> simp only [moveCamera, hf, if_true, reduceIte]
    · exact ⟨h1, h2⟩
  · by_cases ht : input.tabPressed = true
    · by_cases hw : s.windowVisible = true
      · refine ⟨?_, Or.inr ?_⟩
        · simpa [moveCamera, hf, ht, hw, translateWASD_preserves] using
            Clamp_bounds (s.camera.pitch + MOUSE_SENSITIVITY * (input.mouseMoveY : ℚ))
              (-90) 90 (by norm_num)
        · simp [moveCamera, hf, ht, hw, translateWASD_preserves]
      · have hw' : s.windowVisible = false := by
          revert hw
          cases s.windowVisible <;> simp
        refine ⟨?_, Or.inl ?_⟩
        · simpa [moveCamera, hf, ht, hw'] using ⟨h1, h2⟩
        · simp [moveCamera, hf, ht, hw']
    · by_cases hw : s.windowVisible = true
      · refine ⟨?_, Or.inl ?_⟩
        · simpa [moveCamera, hf, ht, hw] using ⟨h1, h2⟩
        · simp [moveCamera, hf, ht, hw]
      · refine ⟨?_, Or.inr ?_⟩
        · simpa [moveCamera, hf, ht, hw, translateWASD_preserves] using
            Clamp_bounds (s.camera.pitch + MOUSE_SENSITIVITY * (input.mouseMoveY : ℚ))
              (-90) 90 (by norm_num)
        · simp [moveCamera, hf, ht, hw, translateWASD_preserves]

/-- Witness for C5: a concrete frame keeps the pitch inside `[-90, 90]`. -/
theorem moveCamera_pitch_clamped_witness :
    -90 ≤ (moveCamera idRotv demoInput 1 demoState).camera.pitch
    ∧ (moveCamera idRotv demoInput 1 demoState).camera.pitch ≤ 90 :=
  (moveCamera_pitch_clamped idRotv demoInput 1 demoState (by decide) (by decide)).1

/-- C7: on a frame where TAB was pressed and no UI element has focus, the
settings window's visibility is inverted; if the window becomes visible the
mouse is made visible and free and the camera is left untouched, otherwise
the mouse is hidden and set to absolute mode. -/
theorem moveCamera_tab_toggles_window (rotv : Rot → Vec3 → Vec3) (input : InputState)
    (timeStep : ℚ) (s : AppState)
    (hf : input.focusElement = false) (ht : input.tabPressed = true) :
    (moveCamera rotv input timeStep s).windowVisible = !s.windowVisible
    ∧ ((moveCamera rotv input timeStep s).windowVisible = true →
        (moveCamera rotv input timeStep s).mouseVisible = true
        ∧ (moveCamera rotv input timeStep s).mouseMode = MouseMode.MM_FREE
        ∧ (moveCamera rotv input timeStep s).camera = s.camera)
    ∧ ((moveCamera rotv input timeStep s).windowVisible = false →
        (moveCamera rotv input timeStep s).mouseVisible = false
        ∧ (moveCamera rotv input timeStep s).mouseMode = MouseMode.MM_ABSOLUTE) := by
  by_cases hw : s.windowVisible = true
  · simp [moveCamera, hf, ht, hw]
  · have hw' : s.windowVisible = false := by
      revert hw
      cases s.windowVisible <;> simp
    simp [moveCamera, hf, ht, hw']

/-- Witness for C7: with the window initially hidden, TAB shows it, frees the
mouse, and leaves the camera untouched. -/
theorem moveCamera_tab_toggles_window_witness :
    (moveCamera idRotv demoInput 1 demoState).windowVisible = !demoState.windowVisible :=
  (moveCamera_tab_toggles_window idRotv demoInput 1 demoState rfl rfl).1

/-- C10: `CreateSlider(text, value, range)` performs `SetRange(range)` before
`SetValue(value)` and returns a slider with exactly that range and with the
initial value clamped into `[0, range]`; the five sliders are constructed
with the pairs Strength (1, 5), Area (1.75, 3), Falloff (1, 10), Noise
Factor (7, 20), Radius (0.6, 10) — each initial value already lies inside
its range — and an event value inside `[0, range]` is forwarded to a shader
parameter inside `[0, range]`, the falloff parameter never exceeding `1/100`
after the `/1000` scale. -/
theorem createSlider_order_and_bounds :
    (∀ text : String, ∀ value range : ℚ,
        (createSlider text value range).2 =
          [SliderOp.setRange range, SliderOp.setValue value]
        ∧ (createSlider text value range).1 =
            { text := text, range := range, value := Clamp value 0 range })
    ∧ createInstructions.map (fun e => (e.1.text, e.1.value, e.1.range)) =
        [("Strength", 1.0, 5.0), ("Area", 1.75, 3.0), ("Falloff", 1.0, 10.0),
          ("Noise Factor", 7.0, 20.0), ("Radius", 0.6, 10.0)]
    ∧ (∀ id : SliderId, ∀ v : ℚ, ∀ s : AppState, s.renderer.viewports ≠ [] →
        0 ≤ v → v ≤ id.sliderRange →
        ∃ w : ℚ, (sliderChangedHandler id v s).viewport0Param id.paramName = some w
          ∧ 0 ≤ w ∧ w ≤ id.sliderRange
          ∧ (id = SliderId.falloff → w ≤ 1 / 100)) := by
  refine ⟨fun text value range => ⟨rfl, rfl⟩, ?_, ?_⟩
  · norm_num [createInstructions, createSlider, UISlider.setRange, UISlider.setValue, Clamp]
  intro id v s hv h0 hr
  obtain ⟨vp, rest, hl⟩ := exists_cons_of_ne_nil hv
  by_cases hid : id = SliderId.falloff
  · subst hid
    refine ⟨v / 1000, ?_, ?_, ?_, fun _ => ?_⟩
    · rw [sliderChangedHandler_eq, viewport0Param_onViewport0_cons s _ vp rest hl]
      simp [RenderPath.setShaderParameter, lookupAssoc_setAssoc_self]
    · linarith
    · simp only [SliderId.sliderRange] at hr ⊢
      linarith
    · simp only [SliderId.sliderRange] at hr
      linarith
  · refine ⟨v, ?_, h0, hr, fun hc => absurd hc hid⟩
    rw [sliderChangedHandler_eq, viewport0Param_onViewport0_cons s _ vp rest hl, if_neg hid]
    simp [RenderPath.setShaderParameter, lookupAssoc_setAssoc_self]

/-- Witness for C10: a Falloff event value of 10 forwards `SSAOFalloff = 1/100`. -/
theorem createSlider_order_and_bounds_witness :
    (createSlider "Falloff" 1.0 10.0).2 =
      [SliderOp.setRange 10.0, SliderOp.setValue 1.0] :=
  ((createSlider_order_and_bounds).1 "Falloff" 1.0 10.0).1

/-- C4: whatever the random scales, `CreateScene` builds exactly one ground
plane node, exactly 200 box nodes all given model `Models/Box.mdl` and
material `Materials/Prototype.xml`, exactly one camera node, and no light
component anywhere (the light-creating code is commented out). -/
theorem createScene_contents (rand : Nat → ℚ) :
    (((createScene rand).nodes.filter (fun n => n.name == "Plane")).length = 1
      ∧ ∀ n ∈ (createScene rand).nodes, n.name = "Plane" →
          n.components = [Component.staticModel "Models/Plane.mdl" "Materials/Prototype.xml"])
    ∧ (((createScene rand).nodes.filter (fun n => n.name == "Mushroom")).length = 200
      ∧ ∀ n ∈ (createScene rand).nodes, n.name = "Mushroom" →
          n.components = [Component.staticModel "Models/Box.mdl" "Materials/Prototype.xml"])
    ∧ ((createScene rand).nodes.filter
        (fun n => n.components.contains Component.camera)).length = 1
    ∧ (∀ n ∈ (createScene rand).nodes, Component.light ∉ n.components)
    ∧ Component.light ∉ (createScene rand).components := by
  refine ⟨⟨?_, ?_⟩, ⟨?_, ?_⟩, ?_, ?_, ?_⟩
  · simp [createScene, List.filter_map, Function.comp]
  · intro n hn hname
    simp [createScene] at hn
    rcases hn with h | h | ⟨i, hi, h⟩ | h <;> subst h <;> simp_all
  · simp [createScene, List.filter_map, Function.comp_def, List.filter_true]
  · intro n hn hname
    simp [createScene] at hn
    rcases hn with h | h | ⟨i, hi, h⟩ | h <;> subst h <;> simp_all
  · simp [createScene, List.filter_map, Function.comp]
  · intro n hn
    simp [createScene] at hn
    rcases hn with h | h | ⟨i, hi, h⟩ | h <;> subst h <;> simp
  · simp [createScene]

/-- Witness for C4: instantiated at the constant random sequence 0. -/
theorem createScene_contents_witness :
    ((createScene (fun _ => 0)).nodes.filter (fun n => n.name == "Plane")).length = 1 :=
  (createScene_contents (fun _ => 0)).1.1

theorem lt_length_of_get?_eq_some {α : Type} {l : List α} {i : Nat} {a : α}
    (h : l.get? i = some a) : i < l.length := by
  by_contra hc
  rw [List.get?_eq_none.mpr (Nat.le_of_not_lt hc)] at h
  exact Option.noConfusion h

theorem setViewportSlot_zero (slots : List (Option ViewportRef)) (vp : ViewportRef) :
    (setViewportSlot slots 0 vp).get? 0 = some (some vp) := by
  cases slots with
  | nil => rfl
  | cons a as => simp [setViewportSlot, setIdx, modifyIdx]

/-- C6: `SetupViewport` performs, in order: clone the viewport's current
render path, append the post-process resource `PostProcess/SSAO.xml` to the
clone, enable the `SSAO` tag on the clone, set the clone as the viewport's
render path, and install the viewport at renderer index 0; the original
(pre-clone) render-path object is not modified, and the installed viewport
points at a different object holding the appended and enabled clone. -/
theorem setupViewport_clones_appends_enables (st : RPStore) (defaultId : Nat)
    (slots : List (Option ViewportRef)) (rp0 : RenderPath)
    (h : st.get defaultId = some rp0) :
    (setupViewport st defaultId slots).2.2 =
      [RPOp.clone, RPOp.append "PostProcess/SSAO.xml", RPOp.setEnabled "SSAO" true,
        RPOp.setViewportRenderPath, RPOp.setRendererViewport 0]
    ∧ (setupViewport st defaultId slots).1.get defaultId = some rp0
    ∧ ∃ vp : ViewportRef,
        ((setupViewport st defaultId slots).2.1).get? 0 = some (some vp)
        ∧ vp.renderPathId ≠ defaultId
        ∧ (setupViewport st defaultId slots).1.get vp.renderPathId =
            some ((rp0.appendRes "PostProcess/SSAO.xml").setEnabledTag "SSAO" true) := by
  have hlt : defaultId < st.paths.length := lt_length_of_get?_eq_some h
  refine ⟨rfl, ?_, ⟨st.paths.length⟩, ?_, hlt.ne', ?_⟩
  · simp only [setupViewport, RPStore.alloc, RPStore.modifyAt, RPStore.get, h, Option.getD_some]
    rw [get?_modifyIdx_ne _ _ _ _ hlt.ne', get?_modifyIdx_ne _ _ _ _ hlt.ne',
      List.get?_append hlt]
    exact h
  · simp only [setupViewport, RPStore.alloc, RPStore.get, h, Option.getD_some]
    exact setViewportSlot_zero slots _
  · have h' : st.paths.get? defaultId = some rp0 := h
    simp only [setupViewport, RPStore.alloc, RPStore.modifyAt, RPStore.get, h', Option.getD_some]
    rw [get?_modifyIdx_self, get?_modifyIdx_self, List.get?_concat_length]
    rfl

/-- Witness for C6: run on a store holding only the default render path. -/
theorem setupViewport_clones_appends_enables_witness :
    (setupViewport demoStore 0 []).2.2 =
      [RPOp.clone, RPOp.append "PostProcess/SSAO.xml", RPOp.setEnabled "SSAO" true,
        RPOp.setViewportRenderPath, RPOp.setRendererViewport 0] :=
  (setupViewport_clones_appends_enables demoStore 0 [] demoRenderPath rfl).1

end SSAO
